import Mathlib

/-!
# Verification of the PWA update-notification lifecycle

Shallow embedding of the update lifecycle implemented in
`src/unnamed/part_004` (the timer-based `usePWAUpdate` hook) together with
the prompt component `src/unnamed/part_003` (`PWAUpdatePrompt`).

The hook keeps three pieces of session state (`updateAvailable`,
`offlineReady`, `dismissedRef.current`), reacts to notifications from the
external registration mechanism (`onNeedRefresh`, `onOfflineReady`,
`onRegistered`, `onRegisterError` plus the two `useEffect` blocks keyed on
the latched signals `swNeedRefresh` / `swOfflineReady`), and exposes the two
user actions `updateApp` and `dismissUpdate`.  Timing is modelled with an
explicit millisecond clock and an explicit queue of pending `setTimeout`
callbacks: `dismissUpdate` schedules a callback 48 hours later that clears
the dismissal flag, and `updateApp` schedules the page reload 100 ms later.
The prompt component renders exactly when `updateAvailable` is true, so
`shouldShowPrompt` is that field.
-/

set_option autoImplicit false

namespace PwaUpdate

/-- 48 hours in milliseconds: the `48 * 60 * 60 * 1000` literal passed to
`setTimeout` in `dismissUpdate` (src/unnamed/part_004). -/
def suppressionWindowMs : Nat := 48 * 60 * 60 * 1000

/-- 100 ms: the delay passed to `setTimeout` before `window.location.reload()`
in `updateApp` (src/unnamed/part_004). -/
def reloadDelayMs : Nat := 100

/-- The two kinds of `setTimeout` callbacks the hook creates: the 48-hour
callback that resets `dismissedRef.current`, and the deferred page reload. -/
inductive TimerKind
  | resetDismiss
  | reload
deriving DecidableEq, BEq

/-- A pending `setTimeout` callback: its absolute due time and its kind. -/
structure Timer where
  fireAt : Nat
  kind : TimerKind
deriving DecidableEq, BEq

/-- One call of `updateServiceWorker` (the activation command sent to the
external registration mechanism), with the boolean takeover argument. -/
structure ActivationCmd where
  issuedAt : Nat
  immediate : Bool
deriving DecidableEq, BEq

/-- The update session state of one page load: the hook's React state
(`updateAvailable`, `offlineReady`), the mutable `dismissedRef.current`, the
latched signals returned by `useRegisterSW`, the pending timeouts, the log of
activation commands issued so far, the wall clock, and whether the deferred
reload has happened. -/
structure SessionState where
  now : Nat
  updateAvailable : Bool
  offlineReady : Bool
  dismissed : Bool
  swNeedRefresh : Bool
  swOfflineReady : Bool
  timers : List Timer
  activationCmds : List ActivationCmd
  reloaded : Bool
deriving DecidableEq

/-- The `onNeedRefresh` callback (src/unnamed/part_004 lines 26-31):
`if (!dismissedRef.current) setUpdateAvailable(true)`. -/
def onNeedRefresh (s : SessionState) : SessionState :=
  if !s.dismissed then { s with updateAvailable := true } else s

/-- The `useEffect` keyed on `swNeedRefresh` (src/unnamed/part_004 lines
43-52): `if (swNeedRefresh && !dismissedRef.current) setUpdateAvailable(true);
else if (!swNeedRefresh) { setUpdateAvailable(false);
dismissedRef.current = false; }`. -/
def needRefreshEffect (s : SessionState) : SessionState :=
  if s.swNeedRefresh && !s.dismissed then { s with updateAvailable := true }
  else if !s.swNeedRefresh then { s with updateAvailable := false, dismissed := false }
  else s

/-- The `useEffect` keyed on `swOfflineReady` (src/unnamed/part_004 lines
37-41): `if (swOfflineReady) setOfflineReady(true)`. -/
def offlineReadyEffect (s : SessionState) : SessionState :=
  if s.swOfflineReady then { s with offlineReady := true } else s

/-- `updateApp` (src/unnamed/part_004 lines 54-64), statement by statement:
`updateServiceWorker(true)`; `setUpdateAvailable(false)`;
`dismissedRef.current = false`; `setTimeout(() => window.location.reload(), 100)`. -/
def updateApp (s : SessionState) : SessionState :=
  let s1 : SessionState := { s with activationCmds :=
    s.activationCmds ++ [{ issuedAt := s.now, immediate := true }] }
  let s2 : SessionState := { s1 with updateAvailable := false }
  let s3 : SessionState := { s2 with dismissed := false }
  { s3 with timers := s3.timers ++ [{ fireAt := s.now + reloadDelayMs, kind := TimerKind.reload }] }

/-- `dismissUpdate` (src/unnamed/part_004 lines 66-73), statement by
statement: `setUpdateAvailable(false)`; `dismissedRef.current = true`;
`setTimeout(() => { dismissedRef.current = false; }, 48 * 60 * 60 * 1000)`. -/
def dismissUpdate (s : SessionState) : SessionState :=
  let s1 : SessionState := { s with updateAvailable := false }
  let s2 : SessionState := { s1 with dismissed := true }
  { s2 with timers :=
    s2.timers ++ [{ fireAt := s.now + suppressionWindowMs, kind := TimerKind.resetDismiss }] }

/-- The inbound boundary of the session: the four notifications from the
external registration mechanism and the two user actions exposed by the
hook.  (There is no notification that clears `swNeedRefresh`; the signal is
latched true once a refresh is needed.) -/
inductive Event
  | registered
  | registerError
  | offlineReadyN
  | needRefresh
  | accept
  | dismiss
deriving DecidableEq, BEq

/-- The events handled by the Update Signal Bridge (the `useRegisterSW`
callbacks and effects), as opposed to the two user actions. -/
def Event.isBridge : Event → Bool
  | Event.registered => true
  | Event.registerError => true
  | Event.offlineReadyN => true
  | Event.needRefresh => true
  | Event.accept => false
  | Event.dismiss => false

/-- Deliver one event to the session.  `registered` / `registerError` only
log diagnostics.  A notification first sets the latched signal and runs the
matching `useRegisterSW` callback; the corresponding `useEffect` then re-runs
exactly when the latched signal changed, as React does.  The two user
actions call the hook's `updateApp` / `dismissUpdate`. -/
def deliver (e : Event) (s : SessionState) : SessionState :=
  match e with
  | Event.registered => s
  | Event.registerError => s
  | Event.offlineReadyN =>
      let s2 := { s with swOfflineReady := true, offlineReady := true }
      if s.swOfflineReady then s2 else offlineReadyEffect s2
  | Event.needRefresh =>
      let s2 := onNeedRefresh { s with swNeedRefresh := true }
      if s.swNeedRefresh then s2 else needRefreshEffect s2
  | Event.accept => updateApp s
  | Event.dismiss => dismissUpdate s

/-- Run one due `setTimeout` callback: the 48-hour callback clears
`dismissedRef.current`; the reload callback performs the page reload. -/
def fireTimer (k : TimerKind) (s : SessionState) : SessionState :=
  match k with
  | TimerKind.resetDismiss => { s with dismissed := false }
  | TimerKind.reload => { s with reloaded := true }

/-- Advance the wall clock to `t`: every pending timeout due at or before `t`
fires, and the rest stay pending.  (All due callbacks commute: each one
writes a constant to its own field.) -/
def advanceTo (t : Nat) (s : SessionState) : SessionState :=
  if s.now ≤ t then
    { (s.timers.filter (fun tm => decide (tm.fireAt ≤ t))).foldl
        (fun acc tm => fireTimer tm.kind acc) s with
      timers := s.timers.filter (fun tm => decide (t < tm.fireAt)), now := t }
  else s

/-- One step of a session history: either an event is delivered at the
current instant, or the clock advances (firing due timeouts). -/
inductive Step
  | ev : Event → Step
  | advanceTo : Nat → Step
deriving DecidableEq, BEq

/-- Apply one step to the session state. -/
def applyStep (s : SessionState) (st : Step) : SessionState :=
  match st with
  | Step.ev e => deliver e s
  | Step.advanceTo t => advanceTo t s

/-- The state created on page load: both React states start `false`
(`useState(false)`), the ref starts `false` (`useRef(false)`), nothing is
latched, scheduled, issued, or reloaded. -/
def initState : SessionState :=
  { now := 0, updateAvailable := false, offlineReady := false, dismissed := false,
    swNeedRefresh := false, swOfflineReady := false, timers := [], activationCmds := [],
    reloaded := false }

/-- Run a list of steps from a given state. -/
def runFrom (s : SessionState) (tr : List Step) : SessionState :=
  tr.foldl applyStep s

/-- Run a session history from the page-load state. -/
def run (tr : List Step) : SessionState :=
  runFrom initState tr

/-- The surfacing decision of `PWAUpdatePrompt` (src/unnamed/part_003 lines
11-17): the component renders the prompt exactly when the hook's
`updateAvailable` is true (`if (!updateAvailable) return null`). -/
def shouldShowPrompt (s : SessionState) : Bool :=
  s.updateAvailable

/-- The individual statements of `updateApp`, kept as first-class effects so
that their textual order in the source can be stated. -/
inductive Effect
  | callUpdateServiceWorker : Bool → Effect
  | setUpdateAvailable : Bool → Effect
  | setDismissed : Bool → Effect
  | scheduleTimeout : Nat → TimerKind → Effect
deriving DecidableEq, BEq

/-- The body of `updateApp` (src/unnamed/part_004 lines 54-64) as its list
of statements, in source order. -/
def updateAppEffects : List Effect :=
  [Effect.callUpdateServiceWorker true,
   Effect.setUpdateAvailable false,
   Effect.setDismissed false,
   Effect.scheduleTimeout reloadDelayMs TimerKind.reload]

/-- Semantics of one statement of the hook body. -/
def applyEffect (s : SessionState) (e : Effect) : SessionState :=
  match e with
  | Effect.callUpdateServiceWorker b =>
      { s with activationCmds := s.activationCmds ++ [{ issuedAt := s.now, immediate := b }] }
  | Effect.setUpdateAvailable b => { s with updateAvailable := b }
  | Effect.setDismissed b => { s with dismissed := b }
  | Effect.scheduleTimeout d k =>
      { s with timers := s.timers ++ [{ fireAt := s.now + d, kind := k }] }

/-- A step that may occur after a dismissal without any further user action:
a Bridge notification, or the clock advancing to an instant still inside the
suppression window armed at `t`. -/
def stepInWindow (t : Nat) : Step → Bool
  | Step.ev e => e.isBridge
  | Step.advanceTo u => decide (u < t + suppressionWindowMs)

/-- Reachability invariant of the hook: whenever `updateAvailable` is true,
the dismissal flag is clear (every write of `updateAvailable := true` is
guarded by `!dismissedRef.current`, and `dismissUpdate` clears
`updateAvailable` when it sets the flag). -/
def PromptInv (s : SessionState) : Prop :=
  s.updateAvailable = true → s.dismissed = false

/-- State of a session during an undisturbed suppression window armed at
instant `base`: the prompt is hidden, the dismissal flag is set, the clock is
still inside the window, and every pending 48-hour reset callback is due no
earlier than the window's end. -/
def DismissGuard (base : Nat) (s : SessionState) : Prop :=
  s.updateAvailable = false ∧ s.dismissed = true ∧
    s.now < base + suppressionWindowMs ∧
    ∀ tm ∈ s.timers, tm.kind = TimerKind.resetDismiss →
      base + suppressionWindowMs ≤ tm.fireAt

/-- History exhibiting a stale 48-hour reset callback: dismiss at 0 (prompt
visible), dismiss again at 100 ms (prompt hidden, as the edge-case policy
allows), let the first reset callback fire at 48 h, re-notify, and reach a
visible prompt at 48 h + 50 ms with the second reset callback still pending. -/
def c4Pre : List Step :=
  [Step.ev Event.needRefresh, Step.ev Event.dismiss, Step.advanceTo 100,
   Step.ev Event.dismiss, Step.advanceTo suppressionWindowMs, Step.ev Event.needRefresh,
   Step.advanceTo (suppressionWindowMs + 50)]

/-- Continuation after the dismissal at 48 h + 50 ms: only the clock and a
need-refresh notification, both inside the freshly armed 48-hour window. -/
def c4Cont : List Step :=
  [Step.advanceTo (suppressionWindowMs + 100), Step.ev Event.needRefresh]

/-- History with a rapid double acceptance: a need-refresh notification, then
two back-to-back `updateApp` calls in the same instant. -/
def c3Trace : List Step :=
  [Step.ev Event.needRefresh, Step.ev Event.accept, Step.ev Event.accept]

/-- History with a need-refresh notification arriving 100 ms into an active
suppression window. -/
def c5Trace : List Step :=
  [Step.ev Event.needRefresh, Step.ev Event.dismiss, Step.advanceTo 100,
   Step.ev Event.needRefresh]

/-! ## Basic lemmas about timer callbacks and clock advance -/

/-- Neither timeout callback touches `updateAvailable`. -/
theorem fireTimer_updateAvailable (k : TimerKind) (s : SessionState) :
    (fireTimer k s).updateAvailable = s.updateAvailable := by
  cases k <;> rfl

/-- Neither timeout callback touches `offlineReady`. -/
theorem fireTimer_offlineReady (k : TimerKind) (s : SessionState) :
    (fireTimer k s).offlineReady = s.offlineReady := by
  cases k <;> rfl

/-- The reload callback leaves the dismissal flag alone. -/
theorem fireTimer_dismissed_of_not_reset (k : TimerKind) (s : SessionState)
    (h : k ≠ TimerKind.resetDismiss) : (fireTimer k s).dismissed = s.dismissed := by
  cases k
  · exact absurd rfl h
  · rfl

/-- Firing any batch of due callbacks leaves `updateAvailable` unchanged. -/
theorem foldFire_updateAvailable : ∀ (l : List Timer) (s : SessionState),
    (l.foldl (fun acc tm => fireTimer tm.kind acc) s).updateAvailable = s.updateAvailable := by
  intro l
  induction l with
  | nil => intro s; rfl
  | cons hd tl ih =>
      intro s
      rw [List.foldl_cons, ih, fireTimer_updateAvailable]

/-- Firing any batch of due callbacks leaves `offlineReady` unchanged. -/
theorem foldFire_offlineReady : ∀ (l : List Timer) (s : SessionState),
    (l.foldl (fun acc tm => fireTimer tm.kind acc) s).offlineReady = s.offlineReady := by
  intro l
  induction l with
  | nil => intro s; rfl
  | cons hd tl ih =>
      intro s
      rw [List.foldl_cons, ih, fireTimer_offlineReady]

/-- Timeout callbacks never set the dismissal flag: once clear, it stays
clear through any batch of firings. -/
theorem foldFire_dismissed_false : ∀ (l : List Timer) (s : SessionState),
    s.dismissed = false →
    (l.foldl (fun acc tm => fireTimer tm.kind acc) s).dismissed = false := by
  intro l
  induction l with
  | nil => intro s h; exact h
  | cons hd tl ih =>
      intro s h
      rw [List.foldl_cons]
      refine ih _ ?_
      cases hd.kind
      · rfl
      · exact h

/-- If no 48-hour reset callback is in the batch, the dismissal flag is
unchanged by the firings. -/
theorem foldFire_dismissed_noReset : ∀ (l : List Timer) (s : SessionState),
    (∀ tm ∈ l, tm.kind ≠ TimerKind.resetDismiss) →
    (l.foldl (fun acc tm => fireTimer tm.kind acc) s).dismissed = s.dismissed := by
  intro l
  induction l with
  | nil => intro s _; rfl
  | cons hd tl ih =>
      intro s h
      rw [List.foldl_cons, ih _ (fun tm hm => h tm (List.mem_cons_of_mem _ hm)),
        fireTimer_dismissed_of_not_reset _ _ (h hd (List.mem_cons_self _ _))]

/-- Advancing the clock never changes `updateAvailable`. -/
theorem advanceTo_updateAvailable (t : Nat) (s : SessionState) :
    (advanceTo t s).updateAvailable = s.updateAvailable := by
  unfold advanceTo
  split
  · exact foldFire_updateAvailable _ _
  · rfl

/-- Advancing the clock never changes `offlineReady`. -/
theorem advanceTo_offlineReady (t : Nat) (s : SessionState) :
    (advanceTo t s).offlineReady = s.offlineReady := by
  unfold advanceTo
  split
  · exact foldFire_offlineReady _ _
  · rfl

/-- Advancing the clock never sets the dismissal flag. -/
theorem advanceTo_dismissed_false (t : Nat) (s : SessionState)
    (h : s.dismissed = false) : (advanceTo t s).dismissed = false := by
  unfold advanceTo
  split
  · exact foldFire_dismissed_false _ _ h
  · exact h

/-- If every pending reset callback is due strictly after `t`, advancing the
clock to `t` leaves the dismissal flag unchanged. -/
theorem advanceTo_dismissed_of_reset_late (t : Nat) (s : SessionState)
    (h : ∀ tm ∈ s.timers, tm.kind = TimerKind.resetDismiss → t < tm.fireAt) :
    (advanceTo t s).dismissed = s.dismissed := by
  unfold advanceTo
  split
  · refine foldFire_dismissed_noReset _ _ ?_
    intro tm hm hk
    have hmem : tm ∈ s.timers := (List.mem_filter.mp hm).1
    have hle : tm.fireAt ≤ t := of_decide_eq_true ((List.mem_filter.mp hm).2)
    have := h tm hmem hk
    omega
  · rfl

/-- After advancing the clock the time is the target instant or unchanged. -/
theorem advanceTo_now (t : Nat) (s : SessionState) :
    (advanceTo t s).now = t ∨ (advanceTo t s).now = s.now := by
  unfold advanceTo
  split
  · exact Or.inl rfl
  · exact Or.inr rfl

/-- Advancing the clock only removes pending timeouts, it never adds any. -/
theorem advanceTo_timers_mem (t : Nat) (s : SessionState) (tm : Timer)
    (h : tm ∈ (advanceTo t s).timers) : tm ∈ s.timers := by
  unfold advanceTo at h
  split at h
  · exact List.mem_of_mem_filter h
  · exact h

/-! ## Characterisation of event delivery -/

/-- An offline-ready notification just latches the signal and sets
`offlineReady`, whatever the state was. -/
theorem deliver_offlineReadyN (s : SessionState) :
    deliver Event.offlineReadyN s = { s with swOfflineReady := true, offlineReady := true } := by
  rcases s with ⟨now, ua, off, d, snr, sor, tms, cmds, rel⟩
  cases sor <;> rfl

/-- With the dismissal flag set, a need-refresh notification only latches the
signal: both the callback and the effect are guarded by
`!dismissedRef.current`. -/
theorem deliver_needRefresh_dismissed (s : SessionState) (h : s.dismissed = true) :
    deliver Event.needRefresh s = { s with swNeedRefresh := true } := by
  rcases s with ⟨now, ua, off, d, snr, sor, tms, cmds, rel⟩
  subst h
  cases snr <;> rfl

/-- With the dismissal flag clear, a need-refresh notification latches the
signal and sets `updateAvailable`. -/
theorem deliver_needRefresh_active (s : SessionState) (h : s.dismissed = false) :
    deliver Event.needRefresh s
      = { s with swNeedRefresh := true, updateAvailable := true } := by
  rcases s with ⟨now, ua, off, d, snr, sor, tms, cmds, rel⟩
  subst h
  cases snr <;> rfl

/-! ## Invariant preservation -/

/-- Every step preserves the invariant that a visible update implies a clear
dismissal flag. -/
theorem promptInv_applyStep (s : SessionState) (st : Step) (h : PromptInv s) :
    PromptInv (applyStep s st) := by
  cases st with
  | ev e =>
      cases e with
      | registered => exact h
      | registerError => exact h
      | offlineReadyN =>
          show PromptInv (deliver Event.offlineReadyN s)
          rw [deliver_offlineReadyN]
          intro hua
          exact h hua
      | needRefresh =>
          show PromptInv (deliver Event.needRefresh s)
          cases hd : s.dismissed
          · rw [deliver_needRefresh_active s hd]
            intro _
            exact hd
          · rw [deliver_needRefresh_dismissed s hd]
            intro hua
            exact h hua
      | accept =>
          intro _
          rfl
      | dismiss =>
          intro hua
          exact Bool.noConfusion hua
  | advanceTo t =>
      show PromptInv (advanceTo t s)
      intro hua
      rw [advanceTo_updateAvailable] at hua
      exact advanceTo_dismissed_false t s (h hua)

/-- The invariant holds along any session history. -/
theorem promptInv_runFrom : ∀ (tr : List Step) (s : SessionState),
    PromptInv s → PromptInv (runFrom s tr) := by
  intro tr
  induction tr with
  | nil => intro s h; exact h
  | cons hd tl ih =>
      intro s h
      exact ih (applyStep s hd) (promptInv_applyStep s hd h)

/-- No step ever clears `offlineReady`: each handler either sets it to true
or leaves it alone. -/
theorem applyStep_offlineReady (s : SessionState) (st : Step)
    (h : s.offlineReady = true) : (applyStep s st).offlineReady = true := by
  cases st with
  | ev e =>
      cases e with
      | registered => exact h
      | registerError => exact h
      | offlineReadyN =>
          show (deliver Event.offlineReadyN s).offlineReady = true
          rw [deliver_offlineReadyN]
      | needRefresh =>
          show (deliver Event.needRefresh s).offlineReady = true
          cases hd : s.dismissed
          · rw [deliver_needRefresh_active s hd]
            exact h
          · rw [deliver_needRefresh_dismissed s hd]
            exact h
      | accept => exact h
      | dismiss => exact h
  | advanceTo t =>
      show (advanceTo t s).offlineReady = true
      rw [advanceTo_offlineReady]
      exact h

/-- A Bridge notification or an in-window clock advance preserves an
undisturbed suppression window. -/
theorem dismissGuard_applyStep (base : Nat) (s : SessionState) (st : Step)
    (hg : DismissGuard base s) (hw : stepInWindow base st = true) :
    DismissGuard base (applyStep s st) := by
  obtain ⟨hua, hd, hnow, htm⟩ := hg
  cases st with
  | ev e =>
      cases e with
      | registered => exact ⟨hua, hd, hnow, htm⟩
      | registerError => exact ⟨hua, hd, hnow, htm⟩
      | offlineReadyN =>
          show DismissGuard base (deliver Event.offlineReadyN s)
          rw [deliver_offlineReadyN]
          exact ⟨hua, hd, hnow, htm⟩
      | needRefresh =>
          show DismissGuard base (deliver Event.needRefresh s)
          rw [deliver_needRefresh_dismissed s hd]
          exact ⟨hua, hd, hnow, htm⟩
      | accept => simp [stepInWindow, Event.isBridge] at hw
      | dismiss => simp [stepInWindow, Event.isBridge] at hw
  | advanceTo t =>
      have ht : t < base + suppressionWindowMs := of_decide_eq_true hw
      show DismissGuard base (advanceTo t s)
      refine ⟨?_, ?_, ?_, ?_⟩
      · rw [advanceTo_updateAvailable]
        exact hua
      · rw [advanceTo_dismissed_of_reset_late]
        · exact hd
        · intro tm hm hk
          have := htm tm hm hk
          omega
      · rcases advanceTo_now t s with hn | hn
        · rw [hn]; exact ht
        · rw [hn]; exact hnow
      · intro tm hm hk
        exact htm tm (advanceTo_timers_mem t s tm hm) hk

/-- An undisturbed suppression window survives any sequence of Bridge
notifications and in-window clock advances. -/
theorem dismissGuard_runFrom (base : Nat) : ∀ (cont : List Step) (s : SessionState),
    DismissGuard base s → (∀ st ∈ cont, stepInWindow base st = true) →
    DismissGuard base (runFrom s cont) := by
  intro cont
  induction cont with
  | nil => intro s hg _; exact hg
  | cons hd tl ih =>
      intro s hg hc
      exact ih (applyStep s hd)
        (dismissGuard_applyStep base s hd hg (hc hd (List.mem_cons_self _ _)))
        (fun st hm => hc st (List.mem_cons_of_mem _ hm))

/-! ## Claim theorems -/

/-- C1: for every session history, the exposed signal `shouldShowPrompt` (the
prompt renders) is true if and only if `updateAvailable` is true and no
suppression is active.  The timer-based source stores no `suppressedUntil`
timestamp: suppression being armed and not yet expired is represented by
`dismissedRef.current` still being set, i.e. its 48-hour reset callback not
yet having fired; the equivalence is a property of the state itself, so it
holds freshly at every decision point of every history. -/
theorem c1_prompt_iff (tr : List Step) :
    shouldShowPrompt (run tr) = ((run tr).updateAvailable && !(run tr).dismissed) := by
  have hinv : PromptInv (run tr) :=
    promptInv_runFrom tr initState (fun h => Bool.noConfusion h)
  show (run tr).updateAvailable = ((run tr).updateAvailable && !(run tr).dismissed)
  cases hua : (run tr).updateAvailable
  · rfl
  · rw [hinv hua]
    rfl

/-- C2: accepting an update performs, in source order: first the activation
command `updateServiceWorker(true)` with the immediate-takeover flag set,
then the clear of `updateAvailable` (the prompt disappears before the
reload), then the scheduling of a full page reload 100 ms later.  The first
three conjuncts give the semantics of one `accept`; the remaining ones pin
`updateApp` to its statement list and that list's order (the activation
command at position 0, the flag clear at position 1, the reload scheduling at
position 3, after `dismissedRef.current = false` at position 2). -/
theorem c2_accept_effects (s : SessionState) :
    (deliver Event.accept s).activationCmds
        = s.activationCmds ++ [{ issuedAt := s.now, immediate := true }] ∧
    (deliver Event.accept s).updateAvailable = false ∧
    (deliver Event.accept s).timers
        = s.timers ++ [{ fireAt := s.now + reloadDelayMs, kind := TimerKind.reload }] ∧
    reloadDelayMs = 100 ∧
    updateApp s = updateAppEffects.foldl applyEffect s ∧
    updateAppEffects[0]? = some (Effect.callUpdateServiceWorker true) ∧
    updateAppEffects[1]? = some (Effect.setUpdateAvailable false) ∧
    updateAppEffects[3]? = some (Effect.scheduleTimeout reloadDelayMs TimerKind.reload) :=
  ⟨rfl, rfl, rfl, rfl, rfl, rfl, rfl, rfl⟩

/-- C3 counterexample: `updateApp` has no reentrancy guard, so after a rapid
double call of `accept` the activation command has been issued twice and two
reloads have been scheduled, contradicting the claim that the command is
issued exactly once regardless of how many times `accept` is invoked. -/
theorem c3_counterexample :
    ((run c3Trace).activationCmds).length = 2 ∧
    ((run c3Trace).timers.filter (fun tm => decide (tm.kind = TimerKind.reload))).length = 2 ∧
    shouldShowPrompt (run c3Trace) = false := by
  decide

/-- C3 amended: after `accept` the prompt is hidden immediately, and each
single invocation of `accept` issues exactly one activation command and
schedules exactly one reload — so n invocations issue n commands; nothing in
the code prevents a rapid double call from issuing the command twice. -/
theorem c3_accept_per_invocation (s : SessionState) :
    shouldShowPrompt (deliver Event.accept s) = false ∧
    (deliver Event.accept s).activationCmds.length = s.activationCmds.length + 1 ∧
    ((deliver Event.accept s).timers.filter
        (fun tm => decide (tm.kind = TimerKind.reload))).length
      = (s.timers.filter (fun tm => decide (tm.kind = TimerKind.reload))).length + 1 := by
  refine ⟨rfl, ?_, ?_⟩
  · simp [deliver, updateApp]
  · simp [deliver, updateApp, List.filter_append]

/-- C4 counterexample: the 48-hour reset callbacks are never cancelled, so a
callback armed by an earlier dismissal (here one invoked while the prompt was
hidden, which the code's edge-case policy allows) can fire inside a later
dismissal's window.  In `c4Pre` the prompt is visible at 48 h + 50 ms; the
user dismisses, arming a fresh 48-hour window, yet after only the in-window
steps of `c4Cont` (a clock advance of 50 ms and one need-refresh
notification) the prompt is visible again. -/
theorem c4_counterexample :
    shouldShowPrompt (run c4Pre) = true ∧
    (run c4Pre).now = suppressionWindowMs + 50 ∧
    c4Cont.all (stepInWindow (run c4Pre).now) = true ∧
    shouldShowPrompt (runFrom (deliver Event.dismiss (run c4Pre)) c4Cont) = true := by
  decide

/-- C4 amended: from a visible prompt, `dismiss` hides the prompt
immediately, sets the dismissal flag, and arms a reset callback at
now + 48 h; and provided no reset callback from an earlier dismissal is still
pending, the prompt stays hidden through any further Bridge notifications and
clock advances inside the window. -/
theorem c4_dismiss_suppression (s : SessionState) (cont : List Step)
    (_hvis : shouldShowPrompt s = true)
    (hclean : s.timers.all (fun tm => decide (tm.kind ≠ TimerKind.resetDismiss)) = true)
    (hcont : cont.all (stepInWindow s.now) = true) :
    shouldShowPrompt (deliver Event.dismiss s) = false ∧
    (deliver Event.dismiss s).dismissed = true ∧
    ({ fireAt := s.now + suppressionWindowMs, kind := TimerKind.resetDismiss } : Timer)
        ∈ (deliver Event.dismiss s).timers ∧
    shouldShowPrompt (runFrom (deliver Event.dismiss s) cont) = false := by
  have hclean' : ∀ tm ∈ s.timers, tm.kind ≠ TimerKind.resetDismiss :=
    fun tm hm => of_decide_eq_true (List.all_eq_true.mp hclean tm hm)
  have hcont' : ∀ st ∈ cont, stepInWindow s.now st = true :=
    fun st hm => List.all_eq_true.mp hcont st hm
  have hg : DismissGuard s.now (deliver Event.dismiss s) := by
    refine ⟨rfl, rfl, ?_, ?_⟩
    · show s.now < s.now + suppressionWindowMs
      have hpos : 0 < suppressionWindowMs := by decide
      omega
    · intro tm hm hk
      have hm' : tm ∈ s.timers
          ++ [({ fireAt := s.now + suppressionWindowMs,
                 kind := TimerKind.resetDismiss } : Timer)] := hm
      rcases List.mem_append.mp hm' with h1 | h1
      · exact absurd hk (hclean' tm h1)
      · have h2 := List.mem_singleton.mp h1
        subst h2
        exact Nat.le_refl _
  refine ⟨rfl, rfl, ?_, ?_⟩
  · exact List.mem_append_right _ (List.mem_singleton_self _)
  · exact (dismissGuard_runFrom s.now cont (deliver Event.dismiss s) hg hcont').1

/-- Witness for C4 amended at a concrete session: a dismissal of a visible
prompt with no stale callback pending keeps the prompt hidden through two
more need-refresh notifications and a 5-second clock advance. -/
theorem c4_dismiss_suppression_witness :
    shouldShowPrompt (runFrom (deliver Event.dismiss (run [Step.ev Event.needRefresh]))
        [Step.ev Event.needRefresh, Step.advanceTo 5000, Step.ev Event.needRefresh]) = false :=
  (c4_dismiss_suppression (run [Step.ev Event.needRefresh])
      [Step.ev Event.needRefresh, Step.advanceTo 5000, Step.ev Event.needRefresh]
      (by decide) (by decide) (by decide)).2.2.2

/-- C5 counterexample: a need-refresh notification arriving 100 ms into an
active suppression window does not record `updateAvailable` (the callback is
guarded by `!dismissedRef.current`), and after the window elapses the prompt
does not become visible on its own — both halves of the claim fail on
`c5Trace`. -/
theorem c5_counterexample :
    (run c5Trace).dismissed = true ∧
    (run c5Trace).updateAvailable = false ∧
    (runFrom (run c5Trace) [Step.advanceTo (suppressionWindowMs + 200)]).dismissed = false ∧
    shouldShowPrompt (runFrom (run c5Trace)
        [Step.advanceTo (suppressionWindowMs + 200)]) = false := by
  decide

/-- C5 amended: while the dismissal suppression is active a need-refresh
notification leaves `updateAvailable` unchanged — the flag is not recorded —
so after the window elapses (clearing `dismissedRef.current`) the prompt
reappears only upon a subsequent need-refresh notification, which then does
set `updateAvailable`. -/
theorem c5_needRefresh_suppressed (s : SessionState) (h : s.dismissed = true) :
    (deliver Event.needRefresh s).updateAvailable = s.updateAvailable ∧
    ∀ s2 : SessionState, s2.dismissed = false →
      (deliver Event.needRefresh s2).updateAvailable = true := by
  constructor
  · rw [deliver_needRefresh_dismissed s h]
  · intro s2 h2
    rw [deliver_needRefresh_active s2 h2]

/-- Witness for C5 amended: right after a dismissal, a need-refresh
notification leaves `updateAvailable` unchanged. -/
theorem c5_needRefresh_suppressed_witness :
    (deliver Event.needRefresh (run [Step.ev Event.dismiss])).updateAvailable
      = (run [Step.ev Event.dismiss]).updateAvailable :=
  (c5_needRefresh_suppressed (run [Step.ev Event.dismiss]) (by decide)).1

/-- C6: delivering the same offline-ready notification twice leaves the
session state identical to delivering it once — the handler only sets
`offlineReady` (and the latched signal) to true, so repeats are no-ops — and
one delivery does set `offlineReady`. -/
theorem c6_offlineReady_idempotent (s : SessionState) :
    deliver Event.offlineReadyN (deliver Event.offlineReadyN s)
        = deliver Event.offlineReadyN s ∧
    (deliver Event.offlineReadyN s).offlineReady = true := by
  rw [deliver_offlineReadyN, deliver_offlineReadyN]
  exact ⟨rfl, rfl⟩

/-- C7: `offlineReady` is monotonic within a session: once true, no sequence
of notifications, user actions (`accept`, `dismiss`) or timer firings ever
resets it to false. -/
theorem c7_offlineReady_monotonic : ∀ (tr : List Step) (s : SessionState),
    s.offlineReady = true → (runFrom s tr).offlineReady = true := by
  intro tr
  induction tr with
  | nil => intro s h; exact h
  | cons hd tl ih =>
      intro s h
      exact ih (applyStep s hd) (applyStep_offlineReady s hd h)

/-- Witness for C7: after an offline-ready notification, `offlineReady` is
still true at the end of a session with a need-refresh, a dismissal, a clock
advance and an acceptance. -/
theorem c7_offlineReady_monotonic_witness :
    (runFrom (deliver Event.offlineReadyN initState)
      [Step.ev Event.needRefresh, Step.ev Event.dismiss, Step.advanceTo 777,
       Step.ev Event.accept, Step.advanceTo 900]).offlineReady = true :=
  c7_offlineReady_monotonic
    [Step.ev Event.needRefresh, Step.ev Event.dismiss, Step.advanceTo 777,
     Step.ev Event.accept, Step.advanceTo 900]
    (deliver Event.offlineReadyN initState) (by decide)

/-- C8: the Bridge (the four handlers reacting to external notifications)
writes only the two boolean facts (`offlineReady`, `updateAvailable`, plus
the latched signals they derive from): it never writes the dismissal flag,
never touches the pending timeouts, and issues no activation command — so no
external notification can clear a user-initiated suppression. -/
theorem c8_bridge_frame (s : SessionState) (e : Event) (h : e.isBridge = true) :
    (deliver e s).dismissed = s.dismissed ∧
    (deliver e s).timers = s.timers ∧
    (deliver e s).activationCmds = s.activationCmds := by
  cases e with
  | registered => exact ⟨rfl, rfl, rfl⟩
  | registerError => exact ⟨rfl, rfl, rfl⟩
  | offlineReadyN =>
      rw [deliver_offlineReadyN]
      exact ⟨rfl, rfl, rfl⟩
  | needRefresh =>
      cases hd : s.dismissed
      · rw [deliver_needRefresh_active s hd]
        exact ⟨hd, rfl, rfl⟩
      · rw [deliver_needRefresh_dismissed s hd]
        exact ⟨hd, rfl, rfl⟩
  | accept => exact absurd h (by decide)
  | dismiss => exact absurd h (by decide)

/-- Witness for C8: a need-refresh notification arriving during an active
suppression changes neither the dismissal flag nor the pending timers nor
the command log. -/
theorem c8_bridge_frame_witness :
    (deliver Event.needRefresh (run [Step.ev Event.dismiss])).dismissed
        = (run [Step.ev Event.dismiss]).dismissed ∧
    (deliver Event.needRefresh (run [Step.ev Event.dismiss])).timers
        = (run [Step.ev Event.dismiss]).timers ∧
    (deliver Event.needRefresh (run [Step.ev Event.dismiss])).activationCmds
        = (run [Step.ev Event.dismiss]).activationCmds :=
  c8_bridge_frame (run [Step.ev Event.dismiss]) Event.needRefresh (by decide)

/-- C9: invoking `dismiss` when no update is available changes nothing except
arming the suppression: `updateAvailable` stays false, every other field is
untouched, the dismissal flag is set and its 48-hour reset callback is
scheduled — a dismissal always starts the cooldown. -/
theorem c9_dismiss_without_update (s : SessionState) (h : s.updateAvailable = false) :
    deliver Event.dismiss s
      = { s with dismissed := true,
                 timers := s.timers ++ [{ fireAt := s.now + suppressionWindowMs,
                                          kind := TimerKind.resetDismiss }] } := by
  rcases s with ⟨now, ua, off, d, snr, sor, tms, cmds, rel⟩
  cases ua
  · rfl
  · exact Bool.noConfusion h

/-- Witness for C9: dismissing on the freshly loaded page (no update
available) only sets the flag and schedules the reset callback. -/
theorem c9_dismiss_without_update_witness :
    initState.updateAvailable = false ∧
    deliver Event.dismiss initState
      = { initState with dismissed := true,
                         timers := initState.timers
                           ++ [{ fireAt := initState.now + suppressionWindowMs,
                                 kind := TimerKind.resetDismiss }] } :=
  ⟨rfl, c9_dismiss_without_update initState rfl⟩

/-- C10: in the timer-based variant, `updateApp` also executes
`dismissedRef.current = false`, so accepting always clears an active
dismissal flag — a cooldown armed before `accept` does not survive into the
accept path (the already scheduled 48-hour callback, however, is not
cancelled). -/
theorem c10_accept_clears_dismissal (s : SessionState) :
    (deliver Event.accept s).dismissed = false := rfl

end PwaUpdate
